import Mathlib

/- Verification development for the M5PaperUI retained-mode e-paper UI framework
   (src/src/main.cpp).  The definitions below are a shallow embedding of the parts
   of the source that the claims C1..C10 are about:

   * `UiArea`            — `struct area {int x; int y; int width; int height;}`
   * `packByte` …        — the per-pixel-pair packing step of `UiObj::packToGrey`
   * `Child`, `Frame`, `getUpdateArea` … — `UiFrame::getUpdateArea` and the
     helpers it calls (`isObjectChanged`, `overlaps`, `updateBelow`,
     `UiFrame::isUpdated`); children are modelled as leaf nodes whose
     `isUpdated()` returns their `updated` flag, as in `UiLabel`/`UiImage`.
   * `XFrame`, `frameExpose` — `UiFrame::expose` / `UiObj::expose` /
     `UiFrame::withinArea` / `UiObj::childOffset`
   * `TFrame`, `frameTouchEvent` — `UiFrame::touchEvent`
   * `MgrModal`, `managerTouchEvent`, `okPressed` — `UiManager::touchEvent`,
     `UiModal::okPressed`, `UiObj::hide`
   * `LabelGeom`, `autoResize` — `UiLabel::autoResize` / `createBuffer` /
     `resize`, with the text-metrics service (textWidth/fontHeight) abstract
   * `charAtL`, `substringL`, `lineLimit` — `UiLabel::lineLimit` over Arduino
     `String` semantics (charAt out of range yields NUL, substring swaps and
     clamps its endpoints)
   * `copyToParent`, `packToGrey` — the compositing steps with their null-buffer
     guards; a missing `frameBuffer(1)` is modelled as `none`.

   C++ `int` is modelled as `Int`; machine overflow is irrelevant at the screen
   scales involved.  C++ `while` loops are modelled by structural recursion; the
   single loop whose bound is not syntactic (`lineLimit`) takes explicit fuel
   together with a proof (`lineLoop_fuel_irrelevant`) that the supplied fuel is
   never exhausted. -/

structure UiArea where
  x : Int
  y : Int
  width : Int
  height : Int
  deriving DecidableEq

/- ---------------------------------------------------------------------------
   4-bit grayscale packing (UiObj::packToGrey inner step, main.cpp:538)
   outBuf[o] = ((ownBuf[i] & 0x0F) << 4) | (ownBuf[i+1] & 0x0F)
   --------------------------------------------------------------------------- -/

def packByte (a b : Nat) : Nat :=
  ((a &&& 0x0F) <<< 4) ||| (b &&& 0x0F)

/-- Pack consecutive pairs of a row of pixel values into bytes, as the inner
    loop of `packToGrey` does while walking the source two pixels at a time. -/
def packPairs : List Nat → List Nat
  | a :: b :: rest => packByte a b :: packPairs rest
  | _ => []

/-- Unpack every byte into its high and low nibble (the claim's inverse map). -/
def unpackBytes : List Nat → List Nat
  | [] => []
  | c :: rest => (c >>> 4) :: (c &&& 0x0F) :: unpackBytes rest

/- ---------------------------------------------------------------------------
   UiFrame::getUpdateArea (main.cpp:1197-1269) and helpers
   --------------------------------------------------------------------------- -/

/-- A leaf child of a frame: the fields of `UiObj` that
    `UiFrame::getUpdateArea` reads or writes.  `updated` is the leaf
    `isUpdated()` result (`UiLabel::isUpdated`, main.cpp:655). -/
structure Child where
  x : Int
  y : Int
  width : Int
  height : Int
  initialised : Bool
  updated : Bool
  visible : Bool
  visibilityChanged : Bool
  newParent : Bool
  deriving DecidableEq

/-- `UiFrame::isObjectChanged` (main.cpp:1159-1166). -/
def isObjectChanged (obj : Child) : Bool :=
  obj.initialised && ((obj.updated && obj.visible) || obj.visibilityChanged || obj.newParent)

/-- `UiFrame::overlaps` (main.cpp:1177-1184). -/
def overlapsC (o1 o2 : Child) : Bool :=
  !(decide (o1.x + o1.width < o2.x) || decide (o1.x > o2.x + o2.width) ||
    decide (o1.y + o1.height < o2.y) || decide (o1.y > o2.y + o2.height))

/-- `UiFrame::updateBelow` (main.cpp:1186-1195): flag every child whose
    bounding box overlaps `obj` as `visibilityChanged`. -/
def updateBelow (obj : Child) (objs : List Child) : List Child :=
  objs.map fun c => if overlapsC obj c then { c with visibilityChanged := true } else c

/-- The first loop of `getUpdateArea` (main.cpp:1213-1219): iterate the child
    vector in place; whenever the child currently at position `i` is
    initialised, just hidden (`visibilityChanged && !visible`), run
    `updateBelow` on the whole vector.  Mutations made by earlier iterations
    are seen by later ones, as with the in-place pointer vector. -/
def hiddenPass (objs : List Child) : List Child :=
  (List.range objs.length).foldl
    (fun cs i =>
      match cs[i]? with
      | some o => if o.initialised && o.visibilityChanged && !o.visible then updateBelow o cs else cs
      | none => cs)
    objs

/-- The fields of `UiFrame` that `getUpdateArea` and `isUpdated` touch. -/
structure Frame where
  x : Int
  y : Int
  width : Int
  height : Int
  initialised : Bool
  itemsChanged : Bool
  visibilityChanged : Bool
  newParent : Bool
  hwFrame : Bool
  objects : List Child
  updateArea : UiArea
  deriving DecidableEq

/-- `UiFrame::isUpdated` (main.cpp:1133-1157). -/
def frameIsUpdated (f : Frame) : Bool :=
  if !f.initialised then false
  else if f.itemsChanged || f.visibilityChanged || f.newParent then true
  else f.objects.any isObjectChanged

/-- One iteration of the accumulation loop of `getUpdateArea`
    (main.cpp:1227-1254): the running minimum of the offsets is updated first,
    and the `width`/`height` maxima are then taken relative to the already
    updated `x`/`y`, exactly as in the source. -/
def accumStep (ua : UiArea) (obj : Child) : UiArea :=
  if isObjectChanged obj then
    let nx := if ua.x == -1 then obj.x else min ua.x obj.x
    let ny := if ua.y == -1 then obj.y else min ua.y obj.y
    { x := nx, y := ny,
      width := max ua.width (obj.width + obj.x - nx),
      height := max ua.height (obj.height + obj.y - ny) }
  else ua

/-- The full accumulation starting from the `{-1, -1, 0, 0}` sentinel
    (main.cpp:1211). -/
def accumAreaRaw (objs : List Child) : UiArea :=
  objs.foldl accumStep { x := -1, y := -1, width := 0, height := 0 }

/-- main.cpp:1255-1259: if either offset is still negative, zero both. -/
def clampXY (ua : UiArea) : UiArea :=
  if ua.x < 0 ∨ ua.y < 0 then { ua with x := 0, y := 0 } else ua

/-- main.cpp:1265: `((width + 3) >> 2) << 2`; the widths this is applied to are
    nonnegative, where the arithmetic shifts agree with `(w + 3) / 4 * 4`. -/
def round4 (w : Int) : Int := ((w + 3) / 4) * 4

/-- `UiFrame::getUpdateArea` (main.cpp:1197-1269).  Returns the frame with the
    mutations the call performs (children flagged by `updateBelow`, the stored
    `updateArea`) together with the returned area. -/
def getUpdateArea (f : Frame) : Frame × UiArea :=
  if !f.initialised then (f, ⟨0, 0, 0, 0⟩)
  else if !frameIsUpdated f then ({ f with updateArea := ⟨0, 0, 0, 0⟩ }, ⟨0, 0, 0, 0⟩)
  else
    let objs2 := hiddenPass f.objects
    if f.visibilityChanged then
      let ua : UiArea := ⟨0, 0, f.width, f.height⟩
      ({ f with objects := objs2, updateArea := ua }, ua)
    else
      let ua1 := clampXY (accumAreaRaw objs2)
      let ua2 := if f.hwFrame then { ua1 with width := round4 ua1.width } else ua1
      ({ f with objects := objs2, updateArea := ua2 }, ua2)

/- ---------------------------------------------------------------------------
   UiFrame::expose (main.cpp:1308-1324), UiObj::expose (main.cpp:344-348),
   UiFrame::withinArea (main.cpp:1168-1175), UiObj::childOffset (main.cpp:191-206)
   --------------------------------------------------------------------------- -/

/-- A child as seen by `UiFrame::expose`. -/
structure XChild where
  x : Int
  y : Int
  width : Int
  height : Int
  visible : Bool
  hasParent : Bool
  exposed : Bool
  exposeArea : UiArea
  deriving DecidableEq

/-- `UiFrame::withinArea` (main.cpp:1168-1175): the object's bounds lie fully
    inside `checkArea`. -/
def withinArea (checkArea : UiArea) (o : XChild) : Bool :=
  decide (o.x ≥ checkArea.x) && decide (o.x + o.width ≤ checkArea.x + checkArea.width) &&
  decide (o.y ≥ checkArea.y) && decide (o.y + o.height ≤ checkArea.y + checkArea.height)

/-- `UiObj::childOffset` (main.cpp:191-206). -/
def childOffset (o : XChild) (a : UiArea) : UiArea :=
  if o.hasParent then ⟨a.x - o.x, a.y - o.y, a.width, a.height⟩ else a

/-- The effect of `obj->expose(obj->childOffset(xArea))` on a leaf child
    (`UiObj::expose`, main.cpp:344-348), guarded as in the distribution loop. -/
def exposeChild (xArea : UiArea) (o : XChild) : XChild :=
  if o.visible && withinArea xArea o then
    { o with exposed := true, exposeArea := childOffset o xArea }
  else o

/-- The fields of a `UiFrame` that `UiFrame::expose` reads or writes.
    `hasParent` models `parent != NULL`. -/
structure XFrame where
  hwFrame : Bool
  hasParent : Bool
  exposed : Bool
  exposeArea : UiArea
  objects : List XChild
  deriving DecidableEq

/-- `UiFrame::expose` (main.cpp:1308-1324): a hardware frame or a frame with no
    parent distributes the exposure to its visible, fully contained children;
    any other frame runs the base `UiObj::expose`, which records the request on
    the frame itself (`exposed`/`exposeArea`) — it makes no call into the
    frame's container. -/
def frameExpose (f : XFrame) (xArea : UiArea) : XFrame :=
  if f.hwFrame || !f.hasParent then
    { f with objects := f.objects.map (exposeChild xArea) }
  else
    { f with exposed := true, exposeArea := xArea }

/- ---------------------------------------------------------------------------
   UiFrame::touchEvent (main.cpp:1326-1346)
   --------------------------------------------------------------------------- -/

/-- A child as seen by `UiFrame::touchEvent`: geometry, layer, visibility and
    its own (virtual) `touchEvent`, abstracted as `handler`. -/
structure TChild where
  x : Int
  y : Int
  width : Int
  height : Int
  layer : Nat
  visible : Bool
  handler : Int → Int → Bool

/-- The per-child test in the dispatch loop (main.cpp:1338): right layer,
    visible, and the point inside the child's bounds (both edges inclusive). -/
def matchesAt (l : Nat) (x y : Int) (o : TChild) : Bool :=
  o.layer == l && o.visible && decide (x ≥ o.x) && decide (x ≤ o.x + o.width) &&
  decide (y ≥ o.y) && decide (y ≤ o.y + o.height)

/-- The double loop of `UiFrame::touchEvent`: layers from `l` down to 0
    (`LAYER_OVERLAY = 5` down to `LAYER_BG = 0`), insertion order within a
    layer; the first match wins. -/
def dispatchFrom (x y : Int) (objs : List TChild) : Nat → Option TChild
  | 0 => objs.find? (matchesAt 0 x y)
  | Nat.succ l2 =>
    match objs.find? (matchesAt (Nat.succ l2) x y) with
    | some o => some o
    | none => dispatchFrom x y objs l2

/-- Dispatch starting at `LAYER_OVERLAY`. -/
def frameDispatch (objs : List TChild) (x y : Int) : Option TChild :=
  dispatchFrom x y objs 5

structure TFrame where
  initialised : Bool
  objects : List TChild

/-- `UiFrame::touchEvent` (main.cpp:1326-1346): `false` when uninitialised;
    otherwise the first matching child (overlay-to-background layer order,
    insertion order within a layer) receives the event translated to its local
    coordinates; `false` when no child matches. -/
def frameTouchEvent (f : TFrame) (x y : Int) : Bool :=
  if !f.initialised then false
  else
    match frameDispatch f.objects x y with
    | some o => o.handler (x - o.x) (y - o.y)
    | none => false

/- ---------------------------------------------------------------------------
   UiManager::touchEvent (main.cpp:1824-1841), UiModal::okPressed
   (main.cpp:1739-1744), UiObj::hide (main.cpp:350-358)
   --------------------------------------------------------------------------- -/

/-- The modal fields read or written by `UiManager::touchEvent` and the modal
    button handlers. -/
structure MgrModal where
  x : Int
  y : Int
  width : Int
  height : Int
  visible : Bool
  visibilityChanged : Bool
  result : Int
  deriving DecidableEq

/-- The local effect of `UiObj::hide` on the modal (main.cpp:350-358); the
    exposure request it also sends to the top-level object is modelled in
    `hideWithExpose` below. -/
def modalHide (m : MgrModal) : MgrModal :=
  if m.visible then { m with visible := false, visibilityChanged := true } else m

/-- `UiModal::okPressed` (main.cpp:1739-1744): `result = 0`, then `hide()`. -/
def okPressed (m : MgrModal) : MgrModal :=
  modalHide { m with result := 0 }

/-- The manager fields `UiManager::touchEvent` reads.  `modal = none` models
    `modal == NULL`; the fallback path is the inherited `UiFrame::touchEvent`
    over the manager's children. -/
structure ManagerState where
  initialised : Bool
  modal : Option MgrModal
  objects : List TChild

/-- `UiManager::touchEvent` (main.cpp:1824-1841).  `modalTouch` abstracts the
    modal subtree's own `UiFrame::touchEvent`; it only receives the event when
    the modal is visible and the point is strictly inside the modal's bounds,
    translated to modal-local coordinates. -/
def managerTouchEvent (m : ManagerState) (modalTouch : Int → Int → Bool) (x y : Int) : Bool :=
  match m.modal with
  | some md =>
    if md.visible then
      if decide (x > md.x) && decide (x < md.x + md.width) &&
         decide (y > md.y) && decide (y < md.y + md.height) then
        modalTouch (x - md.x) (y - md.y)
      else false
    else frameTouchEvent ⟨m.initialised, m.objects⟩ x y
  | none => frameTouchEvent ⟨m.initialised, m.objects⟩ x y

/- ---------------------------------------------------------------------------
   UiLabel::autoResize (main.cpp:1000-1024), UiObj::createBuffer
   (main.cpp:114-125), UiLabel::resize (main.cpp:1026-1033), and the defaults
   set by UiLabel::init (main.cpp:633-653)
   --------------------------------------------------------------------------- -/

/-- The label fields involved in autosizing.  `bufWidth`/`bufHeight` are the
    dimensions of the allocated sprite buffer. -/
structure LabelGeom where
  width : Int
  height : Int
  xPad : Int
  yPad : Int
  outlineThickness : Int
  unbuffered : Bool
  bufWidth : Int
  bufHeight : Int
  deriving DecidableEq

/-- `UiObj::createBuffer` (main.cpp:114-125): allocates only when the object is
    still unbuffered. -/
def createBuffer (l : LabelGeom) (w h : Int) : LabelGeom :=
  if l.unbuffered then
    { l with width := w, height := h, bufWidth := w, bufHeight := h, unbuffered := false }
  else l

/-- `UiLabel::resize` (main.cpp:1026-1033): always reallocates. -/
def resize (l : LabelGeom) (w h : Int) : LabelGeom :=
  { l with width := w, height := h, bufWidth := w, bufHeight := h, unbuffered := false }

/-- `UiLabel::autoResize` (main.cpp:1000-1024) with the text-metrics service
    abstracted: `textWidth` is `surface.textWidth(text)` and `fontHeight` is
    `surface.fontHeight(1)` under the current font selection. -/
def autoResize (textWidth fontHeight : Int) (init : Bool) (l : LabelGeom) : LabelGeom :=
  let w := textWidth + l.xPad * 2 + l.outlineThickness * 2
  let h := fontHeight + l.yPad * 2 + l.outlineThickness * 2
  let l1 := { l with width := w, height := h }
  if init then createBuffer l1 w h else resize l1 w h

/-- The autosizing defaults established by `UiLabel::init` (main.cpp:633-653)
    for a label built by `UiLabel(x, y, text)`: `xPad = 10`, `yPad = 10`, and
    `setOutline(1, 10)` (main.cpp:647), whose parameter order is
    `(colour, thickness)` (main.cpp:907), so the outline thickness is 10.
    The zero-sized `UiObj::init(x, y, 0, 0)` leaves the label unbuffered. -/
def defaultLabelGeom : LabelGeom :=
  { width := 0, height := 0, xPad := 10, yPad := 10, outlineThickness := 10,
    unbuffered := true, bufWidth := 0, bufHeight := 0 }

/- ---------------------------------------------------------------------------
   UiLabel::lineLimit (main.cpp:753-778) over Arduino String semantics
   --------------------------------------------------------------------------- -/

/-- Arduino `String::charAt`: out-of-range access yields the NUL character. -/
def charAtL (s : List Char) (i : Nat) : Char :=
  s.getD i (Char.ofNat 0)

/-- Arduino `String::substring(left, right)`: endpoints are swapped when
    `left > right` and clamped to the length. -/
def substringL (s : List Char) (a b : Nat) : List Char :=
  (s.take (max a b)).drop (min a b)

/-- The inner `do { lineEnd--; } while (charAt(lineEnd) != ' ' && lineEnd >
    lineStart)` of `lineLimit` (main.cpp:772-775): decrement first, then keep
    walking backwards while the character is not a space and the end is still
    beyond the line start. -/
def shrinkEnd (s : List Char) (lineStart : Nat) : Nat → Nat
  | 0 => 0
  | Nat.succ e =>
    if charAtL s e ≠ ' ' ∧ lineStart < e then shrinkEnd s lineStart e else e

/-- The outer `while (true)` of `lineLimit` (main.cpp:765-776).  `wf` abstracts
    `surface.textWidth` and `taw` is `textAreaWidth`.  The loop is given fuel;
    `lineLoop_fuel_irrelevant` below shows any fuel above `lineEnd` gives the
    same result, so the fuel chosen in `lineLimit` never runs out. -/
def lineLoop (wf : List Char → Int) (taw : Int) (s : List Char) (lineStart : Nat) :
    Nat → Nat → Nat
  | 0, lineEnd => lineEnd
  | Nat.succ fuel, lineEnd =>
    if wf (substringL s lineStart lineEnd) ≤ taw ∨ lineEnd - lineStart ≤ 1 then lineEnd
    else lineLoop wf taw s lineStart fuel (shrinkEnd s lineStart lineEnd)

/-- `UiLabel::lineLimit` (main.cpp:753-778).  Note the source computes
    `text.indexOf('\x0a')`, which searches from the start of the whole text and
    ignores `offset`. -/
def lineLimit (wf : List Char → Int) (taw : Int) (s : List Char) (offset : Nat) : Nat :=
  let e0 := match s.findIdx? (fun c => c = '\n') with
    | some i => i
    | none => s.length
  lineLoop wf taw s offset (e0 + 1) e0

/- ---------------------------------------------------------------------------
   UiObj::copyToParent (main.cpp:479-497) and UiObj::packToGrey
   (main.cpp:501-542) with their null-buffer guards
   --------------------------------------------------------------------------- -/

/-- A sprite's frame buffer: `none` models `frameBuffer(1) == NULL`. -/
structure SpriteBuf where
  w : Nat
  h : Nat
  buf : Option (List Nat)
  deriving DecidableEq

/-- Byte-wise `memcpy(dst + dstOff, src + srcOff, len)` on flat buffers.
    Out-of-range writes are dropped and out-of-range reads yield 0 (the source
    relies on callers staying in bounds). -/
def copyBytes : List Nat → Nat → List Nat → Nat → Nat → List Nat
  | dst, _, _, _, 0 => dst
  | dst, dstOff, src, srcOff, Nat.succ n =>
    copyBytes (dst.set dstOff (src.getD srcOff 0)) (dstOff + 1) src (srcOff + 1) n

/-- `UiObj::copyToParent` (main.cpp:479-497): a null parent buffer is a no-op;
    otherwise the child's rows are copied into the parent's buffer at the
    child's offset, clipped to the parent's extent.  The child is at
    `(cx, cy)` with size `cw × ch` and owns the row-major bytes `own`;
    coordinates are nonnegative as in every constructed UI. -/
def copyToParent (cx cy : Nat) (cw ch : Nat) (own : List Nat) (parent : SpriteBuf) : SpriteBuf :=
  match parent.buf with
  | none => parent
  | some pbuf =>
    let hh := (min (ch : Int) ((parent.h : Int) - cy)).toNat
    let ww := (min (cw : Int) ((parent.w : Int) - cx)).toNat
    let out := (List.range hh).foldl
      (fun b yy => copyBytes b ((yy + cy) * parent.w + cx) own (yy * cw) ww) pbuf
    { parent with buf := some out }

/-- One row of the packing loop of `packToGrey` (main.cpp:536-540): `cnt` pairs
    of source bytes are packed into consecutive output bytes. -/
def packRow (sb own : List Nat) (ownOff outOff : Nat) : Nat → List Nat
  | 0 => sb
  | Nat.succ n =>
    packRow (sb.set outOff (packByte (own.getD ownOff 0) (own.getD (ownOff + 1) 0)))
      own (ownOff + 2) (outOff + 1) n

/-- `UiObj::packToGrey` (main.cpp:501-542): a null own buffer or a null screen
    buffer is a no-op returning the screen unchanged; otherwise each row of
    `renderArea` is packed two source pixels per output byte.  `objW` is the
    object's width, `(objX, objY)` its position, `(topX, topY, topW)` the
    top-level object's stored update area; the `x += 2` loop performs
    `(renderArea.width + 1) / 2` iterations per row. -/
def packToGrey (own screenB : Option (List Nat)) (objW : Nat) (objX objY topX topY topW : Int)
    (renderArea : UiArea) : Option (List Nat) :=
  match own, screenB with
  | some ob, some sb =>
    some ((List.range renderArea.height.toNat).foldl
      (fun b yy =>
        packRow b ob
          ((((yy : Int) + renderArea.y) * objW + renderArea.x).toNat)
          (((((yy : Int) + objY - topY) * topW + objX - topX) / 2).toNat)
          ((renderArea.width.toNat + 1) / 2))
      sb)
  | _, _ => screenB

/- ---------------------------------------------------------------------------
   UiObj::hide (main.cpp:350-358)
   --------------------------------------------------------------------------- -/

/-- The fields of `UiObj` that `hide()` reads or writes. -/
structure VisObj where
  x : Int
  y : Int
  width : Int
  height : Int
  visible : Bool
  visibilityChanged : Bool
  deriving DecidableEq

/-- `UiObj::getArea` (main.cpp:409-417). -/
def getAreaV (o : VisObj) : UiArea :=
  ⟨o.x, o.y, o.width, o.height⟩

/-- `UiObj::hide` (main.cpp:350-358): only a currently visible object is
    mutated; the second component is the exposure request sent to
    `topLevel()->expose(getArea())`, `none` when no request is issued. -/
def hideWithExpose (o : VisObj) : VisObj × Option UiArea :=
  if o.visible then
    ({ o with visible := false, visibilityChanged := true }, some (getAreaV o))
  else (o, none)

/- ---------------------------------------------------------------------------
   Concrete inputs used by counterexamples, failing-input evaluations and
   witnesses
   --------------------------------------------------------------------------- -/

/-- A changed, visible child at x = 10 of width 5 (right edge 15). -/
def c1ChildA : Child :=
  { x := 10, y := 0, width := 5, height := 5,
    initialised := true, updated := true, visible := true,
    visibilityChanged := false, newParent := false }

/-- A changed, visible child at x = 0 of width 3, inserted after `c1ChildA`. -/
def c1ChildB : Child :=
  { x := 0, y := 0, width := 3, height := 5,
    initialised := true, updated := true, visible := true,
    visibilityChanged := false, newParent := false }

/-- An ordinary initialised software frame holding `c1ChildA` then `c1ChildB`. -/
def c1Frame : Frame :=
  { x := 0, y := 0, width := 20, height := 20,
    initialised := true, itemsChanged := false, visibilityChanged := false,
    newParent := false, hwFrame := false,
    objects := [c1ChildA, c1ChildB], updateArea := ⟨0, 0, 0, 0⟩ }

/-- A hardware frame of width 5 whose own visibility just changed. -/
def c6HwFrame : Frame :=
  { x := 0, y := 0, width := 5, height := 7,
    initialised := true, itemsChanged := false, visibilityChanged := true,
    newParent := false, hwFrame := true,
    objects := [], updateArea := ⟨0, 0, 0, 0⟩ }

/-- A hardware frame on the accumulation path: one changed child of width 5. -/
def c6AccFrame : Frame :=
  { x := 0, y := 0, width := 100, height := 100,
    initialised := true, itemsChanged := false, visibilityChanged := false,
    newParent := false, hwFrame := true,
    objects := [{ x := 2, y := 3, width := 5, height := 6,
                  initialised := true, updated := true, visible := true,
                  visibilityChanged := false, newParent := false }],
    updateArea := ⟨0, 0, 0, 0⟩ }

/-- A visible child fully inside `c3Rect`. -/
def c3Child : XChild :=
  { x := 2, y := 2, width := 3, height := 3, visible := true, hasParent := true,
    exposed := false, exposeArea := ⟨0, 0, 0, 0⟩ }

def c3Rect : UiArea := ⟨0, 0, 10, 10⟩

/-- A software frame (`hwFrame = false`) that has a container. -/
def c3Frame : XFrame :=
  { hwFrame := false, hasParent := true, exposed := false,
    exposeArea := ⟨0, 0, 0, 0⟩, objects := [c3Child] }

/-- A hardware (root-like) frame with the same child, for the witness. -/
def c3HwFrame : XFrame :=
  { hwFrame := true, hasParent := false, exposed := false,
    exposeArea := ⟨0, 0, 0, 0⟩, objects := [c3Child] }

/-- A visible CENTRE-layer child over the whole point area whose handler
    accepts. -/
def c4ChildCentre : TChild :=
  { x := 0, y := 0, width := 10, height := 10, layer := 2, visible := true,
    handler := fun _ _ => false }

/-- A visible OVERLAY-layer child covering the same point. -/
def c4ChildOverlay : TChild :=
  { x := 0, y := 0, width := 10, height := 10, layer := 5, visible := true,
    handler := fun _ _ => true }

/-- An uninitialised frame that nonetheless holds a visible matching child. -/
def c4UninitFrame : TFrame :=
  { initialised := false, objects := [c4ChildOverlay] }

/-- An initialised frame with overlapping CENTRE and OVERLAY children. -/
def c4Frame : TFrame :=
  { initialised := true, objects := [c4ChildCentre, c4ChildOverlay] }

/-- A visible modal at (100, 100) of size 200 × 150 with no result yet. -/
def c5Modal : MgrModal :=
  { x := 100, y := 100, width := 200, height := 150,
    visible := true, visibilityChanged := false, result := -1 }

def c5Manager : ManagerState :=
  { initialised := true, modal := some c5Modal, objects := [c4ChildCentre] }

/-- The width measure used for the `lineLimit` evaluation: 10 pixels per
    character (monotone, as a real metrics service is). -/
def c8wf : List Char → Int :=
  fun l => (l.length : Int) * 10

/-- A parent sprite whose frame buffer is null. -/
def c9Parent : SpriteBuf := { w := 8, h := 8, buf := none }

/-- An already-hidden object. -/
def c10Hidden : VisObj :=
  { x := 4, y := 5, width := 6, height := 7, visible := false, visibilityChanged := false }

/- ---------------------------------------------------------------------------
   Helper lemmas
   --------------------------------------------------------------------------- -/

/-- For 4-bit values, the packed byte's high nibble is the first value and its
    low nibble the second. -/
theorem packByte_nibbles : ∀ a, a < 16 → ∀ b, b < 16 →
    packByte a b >>> 4 = a ∧ packByte a b &&& 0x0F = b := by decide

/-- Round trip of the pairwise packing over any even-length list of 4-bit
    values. -/
theorem packPairs_roundtrip : ∀ l : List Nat, l.length % 2 = 0 → (∀ v ∈ l, v < 16) →
    unpackBytes (packPairs l) = l
  | [], _, _ => rfl
  | [a], h, _ => by simp at h
  | a :: b :: rest, h, hb => by
    have ha : a < 16 := hb a (by simp)
    have hb2 : b < 16 := hb b (by simp)
    have ih := packPairs_roundtrip rest (by simp at h; omega) (fun v hv => hb v (by simp [hv]))
    simp [packPairs, unpackBytes, ih, (packByte_nibbles a ha b hb2).1,
      (packByte_nibbles a ha b hb2).2]

/-- If no layer up to `n` has a matching child, the dispatch loop finds
    nothing. -/
theorem dispatchFrom_eq_none_of_all (x y : Int) (objs : List TChild) :
    ∀ n : Nat, (∀ L, L ≤ n → objs.find? (matchesAt L x y) = none) →
      dispatchFrom x y objs n = none := by
  intro n
  induction n with
  | zero => intro h; simpa [dispatchFrom] using h 0 (Nat.le_refl 0)
  | succ m ih =>
    intro h
    have h1 : objs.find? (matchesAt (Nat.succ m) x y) = none := h _ (Nat.le_refl _)
    simp only [dispatchFrom, h1]
    exact ih fun L hL => h L (Nat.le_succ_of_le hL)

/-- A successful dispatch is the first match of the highest layer `L ≤ n` that
    has any match. -/
theorem dispatchFrom_some_spec (x y : Int) (objs : List TChild) :
    ∀ (n : Nat) (o : TChild), dispatchFrom x y objs n = some o →
      ∃ L, L ≤ n ∧ objs.find? (matchesAt L x y) = some o ∧
        ∀ L2, L < L2 → L2 ≤ n → objs.find? (matchesAt L2 x y) = none := by
  intro n
  induction n with
  | zero =>
    intro o h
    exact ⟨0, Nat.le_refl 0, by simpa [dispatchFrom] using h, fun L2 h1 h2 => by omega⟩
  | succ m ih =>
    intro o h
    rcases hf : objs.find? (matchesAt (Nat.succ m) x y) with _ | o'
    · rw [dispatchFrom, hf] at h
      obtain ⟨L, hL, hfind, hup⟩ := ih o h
      refine ⟨L, Nat.le_succ_of_le hL, hfind, fun L2 h1 h2 => ?_⟩
      by_cases hL2 : L2 = Nat.succ m
      · exact hL2 ▸ hf
      · exact hup L2 h1 (by omega)
    · rw [dispatchFrom, hf] at h
      cases h
      exact ⟨Nat.succ m, Nat.le_refl _, hf, fun L2 h1 h2 => by omega⟩

/-- Decomposition of a successful per-child match. -/
theorem matchesAt_spec {L : Nat} {x y : Int} {o : TChild} (h : matchesAt L x y o = true) :
    o.layer = L ∧ o.visible = true ∧ o.x ≤ x ∧ x ≤ o.x + o.width ∧
      o.y ≤ y ∧ y ≤ o.y + o.height := by
  simp only [matchesAt, Bool.and_eq_true, beq_iff_eq, decide_eq_true_eq, ge_iff_le] at h
  tauto

/-- `accumStep` never shrinks the accumulated width. -/
theorem accumStep_width_le (ua : UiArea) (obj : Child) :
    ua.width ≤ (accumStep ua obj).width := by
  rw [accumStep]
  split
  · exact le_max_left _ _
  · exact le_refl _

/-- Folding `accumStep` never shrinks the width. -/
theorem foldl_accumStep_width_le :
    ∀ (objs : List Child) (ua : UiArea), ua.width ≤ (objs.foldl accumStep ua).width := by
  intro objs
  induction objs with
  | nil => intro ua; exact le_refl _
  | cons o rest ih =>
    intro ua
    exact le_trans (accumStep_width_le ua o) (ih (accumStep ua o))

/-- Zeroing negative offsets does not change the width. -/
theorem clampXY_width_eq (ua : UiArea) : (clampXY ua).width = ua.width := by
  rw [clampXY]; split <;> rfl

/-- The accumulated, clamped width is nonnegative (the accumulation starts at
    width 0 and only grows). -/
theorem clamp_accum_width_nonneg (objs : List Child) :
    0 ≤ (clampXY (accumAreaRaw objs)).width := by
  rw [clampXY_width_eq, accumAreaRaw]
  exact foldl_accumStep_width_le objs { x := -1, y := -1, width := 0, height := 0 }

/-- Rounding a width up to a multiple of 4 never shrinks it. -/
theorem round4_ge (w : Int) : w ≤ round4 w := by
  rw [round4]; omega

/-- The rounded width is divisible by 4. -/
theorem round4_dvd (w : Int) : (4 : Int) ∣ round4 w := by
  rw [round4]; exact dvd_mul_left 4 _

/-- The backward walk of `lineLimit` always ends strictly before its starting
    position (it decrements at least once). -/
theorem shrinkEnd_le (s : List Char) (ls : Nat) : ∀ n : Nat, shrinkEnd s ls n ≤ n - 1 := by
  intro n
  induction n with
  | zero => simp [shrinkEnd]
  | succ e ih =>
    rw [shrinkEnd]
    split
    · exact le_trans ih (by omega)
    · omega

/-- Any fuel above the current line end gives the outer `while (true)` loop of
    `lineLimit` the same result: the loop always exits before the fuel chosen
    in `lineLimit` runs out, since each pass strictly decreases the line end. -/
theorem lineLoop_fuel_irrelevant (wf : List Char → Int) (taw : Int) (s : List Char) (ls : Nat) :
    ∀ (f1 : Nat) (f2 e : Nat), e < f1 → e < f2 →
      lineLoop wf taw s ls f1 e = lineLoop wf taw s ls f2 e := by
  intro f1
  induction f1 with
  | zero => intro f2 e h1 h2; omega
  | succ f ih =>
    intro f2 e h1 h2
    cases f2 with
    | zero => omega
    | succ f2' =>
      rw [lineLoop, lineLoop]
      by_cases hC : wf (substringL s ls e) ≤ taw ∨ e - ls ≤ 1
      · rw [if_pos hC, if_pos hC]
      · rw [if_neg hC, if_neg hC]
        have he : 2 ≤ e := by omega
        have hs := shrinkEnd_le s ls e
        exact ih f2' (shrinkEnd s ls e) (by omega) (by omega)

/- ---------------------------------------------------------------------------
   Claim theorems
   --------------------------------------------------------------------------- -/

/-- Claim C1 (failing-input evaluation).  The claim states that after
    `getUpdateArea()` runs, the update area contains the bounding box of every
    child counted as visually changed.  On the frame `c1Frame`, whose children
    are the changed child at x = 10 of width 5 followed by the changed child at
    x = 0 of width 3, the code computes the area `{0, 0, 5, 5}`: when the
    running minimum `updateArea.x` moves left, the previously accumulated
    `width` is not compensated (main.cpp:1251 recomputes it against the new
    origin), so the first child's right edge at 15 lies outside the computed
    area. -/
theorem C1_updateArea_misses_changed_child :
    (getUpdateArea c1Frame).2 = ⟨0, 0, 5, 5⟩
    ∧ c1ChildA ∈ c1Frame.objects
    ∧ isObjectChanged c1ChildA = true
    ∧ (getUpdateArea c1Frame).2.x + (getUpdateArea c1Frame).2.width
        < c1ChildA.x + c1ChildA.width := by
  refine ⟨by decide, by decide, by decide, by decide⟩

/-- Claim C2: packing an even-length sequence of 4-bit values pairwise into
    bytes via `(v₀ & 0xF) << 4 | (v₁ & 0xF)` — the per-pixel-pair step of
    `packToGrey` — and unpacking each byte into its high and low nibble
    recovers the sequence; in particular `[0, 15, 3, 12, 7, 8, 1, 14]` packs to
    `[0x0F, 0x3C, 0x78, 0x1E]`. -/
theorem C2_pack_roundtrip :
    (∀ l : List Nat, l.length % 2 = 0 → (∀ v ∈ l, v < 16) →
      unpackBytes (packPairs l) = l)
    ∧ packPairs [0, 15, 3, 12, 7, 8, 1, 14] = [0x0F, 0x3C, 0x78, 0x1E] :=
  ⟨packPairs_roundtrip, by decide⟩

/-- Witness for C2 at the concrete even-length 4-bit sequence `[0, 15]`. -/
theorem C2_pack_roundtrip_witness :
    ([0, 15] : List Nat).length % 2 = 0 ∧ unpackBytes (packPairs [0, 15]) = [0, 15] :=
  ⟨by decide, C2_pack_roundtrip.1 [0, 15] (by decide) (by decide)⟩

/-- Claim C3 counterexample.  The claim states that a Frame that does not draw
    to hardware and has a non-null container forwards `expose(rect)` to its own
    container rather than handling it locally.  On `c3Frame` (software frame
    with a container), the code instead handles the call locally: it runs the
    base `UiObj::expose`, setting the frame's own `exposed` flag and storing
    the rect, and leaves its children untouched; no call into the container
    occurs anywhere in `UiFrame::expose` (main.cpp:1308-1324). -/
theorem C3_expose_not_forwarded :
    c3Frame.hwFrame = false ∧ c3Frame.hasParent = true
    ∧ frameExpose c3Frame c3Rect = { c3Frame with exposed := true, exposeArea := c3Rect }
    ∧ (frameExpose c3Frame c3Rect).objects = c3Frame.objects := by
  refine ⟨rfl, rfl, by decide, by decide⟩

/-- Claim C3 as amended: a Frame that does not draw to hardware and has a
    non-null container records the exposure on itself (`exposed := true`,
    `exposeArea := rect`) via the base `UiObj::expose`; only a Frame that draws
    to hardware or has no container distributes the exposure to its visible
    children fully contained in the rect, translated to child-local
    coordinates. -/
theorem C3_expose_amended : ∀ (f : XFrame) (r : UiArea),
    (f.hwFrame = false → f.hasParent = true →
      frameExpose f r = { f with exposed := true, exposeArea := r })
    ∧ (f.hwFrame = true ∨ f.hasParent = false →
      frameExpose f r = { f with objects := f.objects.map (exposeChild r) }) := by
  intro f r
  constructor
  · intro h1 h2
    simp [frameExpose, h1, h2]
  · intro h
    rcases h with h | h <;> simp [frameExpose, h]

/-- Witness for C3's amended statement: the software frame with a container
    records the exposure locally, and the hardware frame distributes it to its
    contained visible child. -/
theorem C3_expose_amended_witness :
    frameExpose c3Frame c3Rect = { c3Frame with exposed := true, exposeArea := c3Rect }
    ∧ frameExpose c3HwFrame c3Rect
        = { c3HwFrame with objects := c3HwFrame.objects.map (exposeChild c3Rect) } :=
  ⟨(C3_expose_amended c3Frame c3Rect).1 rfl rfl,
   (C3_expose_amended c3HwFrame c3Rect).2 (Or.inl rfl)⟩

/-- Claim C10: hiding a node whose `visible` flag is already false leaves its
    state unchanged and propagates no exposure request to the top-level
    object; `UiObj::hide` mutates only a currently visible node. -/
theorem C10_hide_invisible_noop :
    ∀ o : VisObj, o.visible = false → hideWithExpose o = (o, none) := by
  intro o h
  simp [hideWithExpose, h]

/-- Witness for C10 on a concrete already-hidden object. -/
theorem C10_hide_invisible_noop_witness :
    c10Hidden.visible = false ∧ hideWithExpose c10Hidden = (c10Hidden, none) :=
  ⟨rfl, C10_hide_invisible_noop c10Hidden rfl⟩

/-- Claim C4 counterexample.  The claim quantifies over every Frame, but an
    uninitialised frame returns false from `touchEvent` without examining its
    children (main.cpp:1328-1331): here the frame holds a visible OVERLAY child
    containing the point (5, 5) whose handler accepts the event, yet the code
    returns false and never delivers it. -/
theorem C4_uninitialised_counterexample :
    frameTouchEvent c4UninitFrame 5 5 = false
    ∧ c4UninitFrame.objects = [c4ChildOverlay]
    ∧ matchesAt 5 5 5 c4ChildOverlay = true
    ∧ c4ChildOverlay.handler (5 - c4ChildOverlay.x) (5 - c4ChildOverlay.y) = true :=
  ⟨rfl, rfl, by decide, rfl⟩

/-- Claim C4 as amended: for every **initialised** Frame and point,
    `touchEvent` examines layers from OVERLAY (5) down to BG (0) and, within a
    layer, children in insertion order: (i) if no child matches at any layer
    the result is false; (ii) a dispatched child is a visible member containing
    the point, receives the event translated to its local coordinates, is the
    first match (`find?`) of its layer, and no higher layer has any match;
    (iii) whenever some visible child with layer OVERLAY contains the point,
    the dispatched child has layer OVERLAY. -/
theorem C4_touch_dispatch_amended : ∀ (f : TFrame) (x y : Int), f.initialised = true →
    ((∀ o ∈ f.objects, ∀ L, L ≤ 5 → matchesAt L x y o = false) →
      frameTouchEvent f x y = false)
    ∧ (∀ o, frameDispatch f.objects x y = some o →
        o ∈ f.objects ∧ o.visible = true
        ∧ o.x ≤ x ∧ x ≤ o.x + o.width ∧ o.y ≤ y ∧ y ≤ o.y + o.height
        ∧ frameTouchEvent f x y = o.handler (x - o.x) (y - o.y)
        ∧ ∃ L, L ≤ 5 ∧ o.layer = L ∧ f.objects.find? (matchesAt L x y) = some o
            ∧ ∀ L2, L < L2 → L2 ≤ 5 → f.objects.find? (matchesAt L2 x y) = none)
    ∧ (∀ c2 ∈ f.objects, matchesAt 5 x y c2 = true →
        ∃ o, frameDispatch f.objects x y = some o ∧ o.layer = 5
          ∧ frameTouchEvent f x y = o.handler (x - o.x) (y - o.y)) := by
  intro f x y hinit
  refine ⟨?_, ?_, ?_⟩
  · intro hall
    have hnone : frameDispatch f.objects x y = none := by
      apply dispatchFrom_eq_none_of_all
      intro L hL
      exact List.find?_eq_none.mpr fun o ho => by simp [hall o ho L hL]
    simp [frameTouchEvent, hinit, hnone]
  · intro o hdisp
    obtain ⟨L, hL5, hfind, hup⟩ := dispatchFrom_some_spec x y f.objects 5 o hdisp
    have hmem : o ∈ f.objects := List.mem_of_find?_eq_some hfind
    have hmatch : matchesAt L x y o = true := List.find?_some hfind
    obtain ⟨hlay, hvis, h1, h2, h3, h4⟩ := matchesAt_spec hmatch
    refine ⟨hmem, hvis, h1, h2, h3, h4, ?_, L, hL5, hlay, hfind, hup⟩
    simp [frameTouchEvent, hinit, hdisp]
  · intro c2 hc2 hm
    rcases hf : f.objects.find? (matchesAt 5 x y) with _ | o
    · exact absurd hm (by simpa using List.find?_eq_none.mp hf c2 hc2)
    · have hdisp : frameDispatch f.objects x y = some o := by
        simp [frameDispatch, dispatchFrom, hf]
      have hmatch : matchesAt 5 x y o = true := List.find?_some hf
      exact ⟨o, hdisp, (matchesAt_spec hmatch).1, by simp [frameTouchEvent, hinit, hdisp]⟩

/-- Witness for C4's amended statement: on the initialised frame holding an
    overlapping CENTRE child and OVERLAY child both containing (5, 5), the
    dispatched child has layer OVERLAY. -/
theorem C4_touch_dispatch_witness :
    ∃ o, frameDispatch c4Frame.objects 5 5 = some o ∧ o.layer = 5
      ∧ frameTouchEvent c4Frame 5 5 = o.handler (5 - o.x) (5 - o.y) :=
  (C4_touch_dispatch_amended c4Frame 5 5 rfl).2.2 c4ChildOverlay
    (by simp [c4Frame]) (by decide)

/-- Claim C5: while the Manager's modal is visible, a touch outside the
    modal's bounds returns false without routing the event to the modal or to
    any other child (the modal branch of `UiManager::touchEvent` never reaches
    the inherited child dispatch), and the modal's OK handler sets
    `result = 0` and hides the modal. -/
theorem C5_modal_exclusivity :
    ∀ (m : ManagerState) (md : MgrModal) (mt : Int → Int → Bool) (x y : Int),
    m.modal = some md → md.visible = true →
    ((x < md.x ∨ md.x + md.width < x ∨ y < md.y ∨ md.y + md.height < y) →
      managerTouchEvent m mt x y = false)
    ∧ (okPressed md).result = 0 ∧ (okPressed md).visible = false := by
  intro m md mt x y hm hv
  refine ⟨?_, ?_, ?_⟩
  · intro hout
    simp only [managerTouchEvent, hm, hv, if_true]
    rw [if_neg]
    simp only [Bool.and_eq_true, decide_eq_true_eq]
    omega
  · simp [okPressed, modalHide, hv]
  · simp [okPressed, modalHide, hv]

/-- Witness for C5: on the concrete manager with its modal visible at
    (100, 100)–(300, 250), the touch at (5, 5) is discarded even though the
    modal-subtree handler would accept anything, and `okPressed` sets the
    result and hides the modal. -/
theorem C5_modal_exclusivity_witness :
    managerTouchEvent c5Manager (fun _ _ => true) 5 5 = false
    ∧ (okPressed c5Modal).result = 0 ∧ (okPressed c5Modal).visible = false :=
  ⟨(C5_modal_exclusivity c5Manager c5Modal (fun _ _ => true) 5 5 rfl rfl).1
      (Or.inl (by decide)),
   (C5_modal_exclusivity c5Manager c5Modal (fun _ _ => true) 5 5 rfl rfl).2.1,
   (C5_modal_exclusivity c5Manager c5Modal (fun _ _ => true) 5 5 rfl rfl).2.2⟩

/-- Claim C6 counterexample.  The claim states that for every hardware frame
    the width returned by `getUpdateArea()` is always divisible by 4.  The
    `visibilityChanged` short-circuit (main.cpp:1221-1225) returns the frame's
    raw `{0, 0, width, height}` before the rounding at main.cpp:1262-1266 is
    reached: the hardware frame `c6HwFrame` of width 5 whose own visibility
    just changed yields an update area of width 5. -/
theorem C6_visibility_path_not_rounded :
    c6HwFrame.hwFrame = true
    ∧ (getUpdateArea c6HwFrame).2 = ⟨0, 0, 5, 7⟩
    ∧ ¬ (4 : Int) ∣ (getUpdateArea c6HwFrame).2.width := by
  refine ⟨rfl, by decide, ?_⟩
  have h5 : (getUpdateArea c6HwFrame).2.width = 5 := by decide
  rw [h5]
  omega

/-- Claim C6 as amended: for every initialised hardware frame that is updated
    and whose own visibility did **not** just change (the accumulation path),
    the returned width equals `((w + 3) div 4) * 4` where `w` is the
    accumulated (clamped) width; it is divisible by 4 and never smaller than
    `w`.  (On the visibility-changed path the raw frame width is returned
    unrounded.) -/
theorem C6_hw_width_amended : ∀ f : Frame,
    f.initialised = true → frameIsUpdated f = true → f.visibilityChanged = false →
    f.hwFrame = true →
    (getUpdateArea f).2.width = round4 (clampXY (accumAreaRaw (hiddenPass f.objects))).width
    ∧ (4 : Int) ∣ (getUpdateArea f).2.width
    ∧ (clampXY (accumAreaRaw (hiddenPass f.objects))).width ≤ (getUpdateArea f).2.width := by
  intro f h1 h2 h3 h4
  have hred : (getUpdateArea f).2.width
      = round4 (clampXY (accumAreaRaw (hiddenPass f.objects))).width := by
    simp [getUpdateArea, h1, h2, h3, h4]
  refine ⟨hred, ?_, ?_⟩
  · rw [hred]; exact round4_dvd _
  · rw [hred]; exact round4_ge _

/-- Witness for C6's amended statement on a hardware frame with one changed
    child of width 5: the returned width is a multiple of 4 and at least the
    accumulated width. -/
theorem C6_hw_width_witness :
    frameIsUpdated c6AccFrame = true ∧ (4 : Int) ∣ (getUpdateArea c6AccFrame).2.width :=
  ⟨rfl, (C6_hw_width_amended c6AccFrame rfl rfl rfl rfl).2.1⟩

/-- Claim C7 counterexample.  The claim's scenario expects a buffer of 42 × 36
    under default padding 10 and "default outline thickness 1", but
    `UiLabel::init` calls `setOutline(1, 10)` (main.cpp:647) whose parameters
    are `(colour, thickness)` (main.cpp:907): the default outline thickness is
    10, so with measured text width 20 and font height 14 the buffer becomes
    20 + 2·10 + 2·10 = 60 wide and 14 + 2·10 + 2·10 = 54 tall. -/
theorem C7_default_outline_counterexample :
    defaultLabelGeom.outlineThickness = 10
    ∧ (autoResize 20 14 true defaultLabelGeom).bufWidth = 60
    ∧ (autoResize 20 14 true defaultLabelGeom).bufHeight = 54
    ∧ (autoResize 20 14 true defaultLabelGeom).bufWidth ≠ 42 := by
  refine ⟨rfl, by decide, by decide, by decide⟩

/-- Claim C7 as amended: `autoResize` sets
    `width = text width + 2·xPad + 2·outlineThickness` and
    `height = font height + 2·yPad + 2·outlineThickness` and (re)allocates the
    buffer to that size (on the init path the buffer is created for a label
    that does not have one yet); the Label's defaults are padding 10 and
    outline thickness 10, so the scenario label gets a 60 × 54 buffer. -/
theorem C7_autoresize_amended : ∀ (tw fh : Int) (l : LabelGeom), l.unbuffered = true →
    ((autoResize tw fh true l).width = tw + 2 * l.xPad + 2 * l.outlineThickness
      ∧ (autoResize tw fh true l).height = fh + 2 * l.yPad + 2 * l.outlineThickness
      ∧ (autoResize tw fh true l).bufWidth = tw + 2 * l.xPad + 2 * l.outlineThickness
      ∧ (autoResize tw fh true l).bufHeight = fh + 2 * l.yPad + 2 * l.outlineThickness)
    ∧ ((autoResize tw fh false l).width = tw + 2 * l.xPad + 2 * l.outlineThickness
      ∧ (autoResize tw fh false l).bufWidth = tw + 2 * l.xPad + 2 * l.outlineThickness
      ∧ (autoResize tw fh false l).bufHeight = fh + 2 * l.yPad + 2 * l.outlineThickness)
    ∧ (autoResize 20 14 true defaultLabelGeom).bufWidth = 60
    ∧ (autoResize 20 14 true defaultLabelGeom).bufHeight = 54 := by
  intro tw fh l hl
  refine ⟨⟨?_, ?_, ?_, ?_⟩, ⟨?_, ?_, ?_⟩, by decide, by decide⟩
  all_goals simp [autoResize, createBuffer, resize, hl]; ring

/-- Witness for C7's amended statement at the scenario metrics (text width 20,
    font height 14) on the default-constructed autosizing label. -/
theorem C7_autoresize_witness :
    defaultLabelGeom.unbuffered = true
    ∧ (autoResize 20 14 true defaultLabelGeom).bufWidth = 60 :=
  ⟨rfl, (C7_autoresize_amended 20 14 defaultLabelGeom rfl).2.2.1⟩

/-- Claim C8 (failing-input evaluation).  The claim states that `lineLimit`
    extends the candidate line to the end of the text or to the next newline
    **after** the line start, so that every produced line is non-empty and the
    line start strictly advances.  The source computes `text.indexOf('\x0a')`
    (main.cpp:756), which searches from the start of the whole text and
    ignores `offset`: on the text "a\x0ab" with line start 1 (the position the
    wrap loop reaches after the first line "a"), the code returns 1 — the
    produced line is empty and the line start does not advance, so
    `drawMultilineText`'s `while (lineEnd < text.length())` loop
    (main.cpp:741-750) never terminates. -/
theorem C8_lineLimit_newline_bug :
    lineLimit c8wf 100 ['a', '\n', 'b'] 1 = 1
    ∧ substringL ['a', '\n', 'b'] 1 (lineLimit c8wf 100 ['a', '\n', 'b'] 1) = []
    ∧ 1 < (['a', '\n', 'b'] : List Char).length := by
  refine ⟨by decide, by decide, by decide⟩

/-- Claim C9: the compositing steps are local no-ops on missing surfaces:
    `copyToParent` returns without writing when the parent's frame buffer is
    null (main.cpp:484-488), and `packToGrey` returns without writing when the
    node's own frame buffer or the screen buffer is null (main.cpp:510-513). -/
theorem C9_null_buffer_guards :
    (∀ (cx cy cw ch : Nat) (own : List Nat) (parent : SpriteBuf),
      parent.buf = none → copyToParent cx cy cw ch own parent = parent)
    ∧ (∀ (own screenB : Option (List Nat)) (objW : Nat) (objX objY topX topY topW : Int)
        (ra : UiArea), own = none ∨ screenB = none →
        packToGrey own screenB objW objX objY topX topY topW ra = screenB) := by
  constructor
  · intro cx cy cw ch own parent h
    simp [copyToParent, h]
  · intro own screenB objW objX objY topX topY topW ra h
    rcases h with h | h
    · subst h; cases screenB <;> rfl
    · subst h; cases own <;> rfl

/-- Witness for C9 on concrete null buffers. -/
theorem C9_null_buffer_guards_witness :
    copyToParent 1 2 3 4 [9, 9, 9] c9Parent = c9Parent
    ∧ packToGrey none (some [1, 2, 3]) 4 0 0 0 0 8 ⟨0, 0, 2, 1⟩ = some [1, 2, 3] :=
  ⟨C9_null_buffer_guards.1 1 2 3 4 [9, 9, 9] c9Parent rfl,
   C9_null_buffer_guards.2 none (some [1, 2, 3]) 4 0 0 0 0 8 ⟨0, 0, 2, 1⟩ (Or.inl rfl)⟩
